import Mathlib

/-!
Verification development for the StreetVoice realtime chart scraper
(src/streetvoice_realtime_scrape.py).

The Python script is shallowly embedded below:
* numeric strings and counters are modelled with Nat/Int,
* fallible operations return Option,
* an HTML document is modelled as its flattened, ordered sequence of
  nodes (tag name, visible text, optional id attribute, optional href),
  matching the script's own traversal style (soup.find / find_all_next /
  find_next walk the flattened node order),
* JSON payloads are modelled by a mutual inductive JVal / JArr / JObj.

Every definition is translated from the source file; comments on each
definition point to the Python function it embeds.
-/

/-! ### Character and string helpers -/

/-- Python's regex class \s restricted to ASCII, as used by re.sub in
clean_text and by str.strip().  The documents handled by the script are
UTF-8 text whose whitespace is ASCII. -/
def pyIsSpace (c : Char) : Bool :=
  c == ' ' || c == '\t' || c == '\n' || c == '\r' || c == '\x0b' || c == '\x0c'

/-- List-of-characters test: pat is an initial segment of the second list.
Used to model Python str.startswith. -/
def charsPre : List Char → List Char → Bool
  | [], _ => true
  | _ :: _, [] => false
  | p :: ps, h :: hs => p == h && charsPre ps hs

/-- List-of-characters test: pat occurs contiguously in the second list.
Used to model Python's `in` substring operator. -/
def charsSub : List Char → List Char → Bool
  | pat, [] => charsPre pat []
  | pat, h :: hs => charsPre pat (h :: hs) || charsSub pat hs

/-- Python s.startswith(pfx). -/
def strStarts (s pfx : String) : Bool :=
  charsPre pfx.toList s.toList

/-- Python s.endswith(sfx). -/
def strEnds (s sfx : String) : Bool :=
  charsPre sfx.toList.reverse s.toList.reverse

/-- Python `pat in hay` on strings. -/
def strContains (hay pat : String) : Bool :=
  charsSub pat.toList hay.toList

/-- Python s.lower() for the ASCII key patterns the script lowers. -/
def strToLower (s : String) : String :=
  String.mk (s.toList.map Char.toLower)

/-- Numeric value of a list of decimal digit characters, most significant
first (the digits surviving re.sub(r"[^\d]", "", s)). -/
def digitsVal (ds : List Char) : Nat :=
  ds.foldl (fun acc c => acc * 10 + (c.toNat - 48)) 0

/-- Embeds to_int (src lines 162-166): strip every non-digit character and
read the remaining digits as a number; None when no digit remains.  The
Python None input case is handled by the Option-typed callers. -/
def to_int (s : String) : Option Nat :=
  let ds := s.toList.filter Char.isDigit
  if ds.isEmpty then none else some (digitsVal ds)

/-- Helper for the first re.sub of clean_text: does the leading whitespace
run of the list contain a newline? -/
def wsRunHasNl : List Char → Bool
  | [] => false
  | c :: cs => pyIsSpace c && (c == '\n' || wsRunHasNl cs)

/-- First substitution of clean_text: re.sub(r"\s+\n", "\n", s).  The
regex deletes, inside every maximal whitespace run, all characters that
precede the run's last newline; this recursion performs exactly that
deletion character by character. -/
def sub_ws_nl : List Char → List Char
  | [] => []
  | c :: cs =>
    if pyIsSpace c && wsRunHasNl cs then sub_ws_nl cs else c :: sub_ws_nl cs

/-- Second substitution of clean_text: re.sub(r"\n\x7b3,\x7d", "\n\n", s):
in every run of newlines only the first two are kept.  The counter k is
the number of newlines seen immediately before the head. -/
def sub_nl3Aux : Nat → List Char → List Char
  | _, [] => []
  | k, c :: cs =>
    if c == '\n' then
      if 2 ≤ k then sub_nl3Aux (k + 1) cs else '\n' :: sub_nl3Aux (k + 1) cs
    else c :: sub_nl3Aux 0 cs

/-- Python str.strip() on a character list. -/
def pyStripL (l : List Char) : List Char :=
  ((l.dropWhile pyIsSpace).reverse.dropWhile pyIsSpace).reverse

/-- Python str.strip() on a string. -/
def pyStrip (s : String) : String :=
  String.mk (pyStripL s.toList)

/-- Embeds clean_text (src lines 169-175): the two whitespace
substitutions, then strip, then the final value or None when empty. -/
def clean_text (s : String) : Option String :=
  let l := pyStripL (sub_nl3Aux 0 (sub_ws_nl s.toList))
  if l.isEmpty then none else some (String.mk l)

/-- Python "\n".join(parts). -/
def joinNl : List String → String
  | [] => ""
  | [s] => s
  | s :: rest => s ++ "\n" ++ joinNl rest

/-! ### Flattened document model -/

/-- One node of the flattened document: its tag name, the visible text
get_text would produce for it, its id attribute and its href attribute
(none when the attribute is missing). -/
structure Node where
  tag : String
  text : String
  idAttr : Option String
  href : Option String
deriving DecidableEq

/-- Python tag.get_text(strip=True) in the flattened model. -/
def stripText (n : Node) : String :=
  pyStrip n.text

/-- Python soup.get_text("\n", strip=True): all stripped node texts,
empties skipped, joined by newlines. -/
def docFullText (doc : List Node) : String :=
  joinNl ((doc.map stripText).filter (fun t => t ≠ ""))

/-- The nodes strictly after the first node satisfying p, in document
order; none when no node satisfies p.  Models soup.find followed by
find_all_next / find_next. -/
def after_first (p : Node → Bool) : List Node → Option (List Node)
  | [] => none
  | n :: rest => if p n then some rest else after_first p rest

/-! ### Section extraction (src lines 334-359) -/

/-- The find step of section_text_by_h2: locate the first h2 whose
stripped text starts with the given marker, returning the nodes after it.
The Python source performs the same search twice (once keyed on the
tag's direct string, once on get_text); in the flattened model both
predicates coincide. -/
def find_h2_after (h2_startswith : String) (doc : List Node) : Option (List Node) :=
  after_first (fun n => n.tag == "h2" && strStarts (stripText n) h2_startswith) doc

/-- The forward walk of section_text_by_h2: collect stripped node texts
until the next h2, or until an h1/h2 whose text contains the
comment-section label; empty texts are skipped. -/
def collect_parts : List Node → List String
  | [] => []
  | sib :: rest =>
    if sib.tag == "h2" then []
    else if (sib.tag == "h1" || sib.tag == "h2")
         && strContains (stripText sib) "留言（" then []
    else
      let txt := stripText sib
      if txt == "" then collect_parts rest else txt :: collect_parts rest

/-- Embeds section_text_by_h2 (src lines 334-359). -/
def section_text_by_h2 (doc : List Node) (h2_startswith : String) : Option String :=
  match find_h2_after h2_startswith doc with
  | none => none
  | some rest => clean_text (joinNl (collect_parts rest))

/-! ### Comments count (src lines 316-331) -/

/-- Second fallback of parse_comments_count: an h1/h2/h3 whose stripped
text starts with the comment label.  The outer some means the heading was
found; its payload is to_int of the heading text, which the source
returns even when it is None. -/
def commentsFromHeading (doc : List Node) : Option (Option Nat) :=
  match doc.find? (fun n =>
      (n.tag == "h1" || n.tag == "h2" || n.tag == "h3")
      && strStarts (stripText n) "留言（") with
  | some h => some (to_int (stripText h))
  | none => none

/-- Match of the regex 留言（\s*(\d+)\s*） at the head of the list. -/
def matchCommentsAt (cs : List Char) : Option Nat :=
  if charsPre "留言（".toList cs then
    let rest := (cs.drop "留言（".toList.length).dropWhile pyIsSpace
    let ds := rest.takeWhile Char.isDigit
    match (rest.dropWhile Char.isDigit).dropWhile pyIsSpace with
    | '）' :: _ => if ds.isEmpty then none else some (digitsVal ds)
    | _ => none
  else none

/-- re.search of the regex 留言（\s*(\d+)\s*）: first match anywhere. -/
def findCommentsNum : List Char → Option Nat
  | [] => none
  | c :: cs =>
    match matchCommentsAt (c :: cs) with
    | some n => some n
    | none => findCommentsNum cs

/-- Embeds parse_comments_count (src lines 316-331): the
span#comment-counts node, else the first h1/h2/h3 comment heading (whose
to_int is returned even when None), else the regex over the full text. -/
def parse_comments_count (doc : List Node) : Option Nat :=
  let fromSpan :=
    match doc.find? (fun n => n.idAttr == some "comment-counts") with
    | some span => if stripText span ≠ "" then to_int (stripText span) else none
    | none => none
  match fromSpan with
  | some v => some v
  | none =>
    match commentsFromHeading doc with
    | some r => r
    | none => findCommentsNum (docFullText doc).toList

/-! ### Conditional critic-review link (src lines 412-433) -/

/-- Base site URL (src line 53). -/
def BASE : String := "https://streetvoice.com"

/-- Embeds absolute_url (src line 178).  Modelled from urljoin's
behaviour for the href shapes the script meets: absolute http(s) URLs are
kept, root-relative paths are glued to the site base, other relative
paths are resolved against the base root. -/
def absolute_url (href : String) : String :=
  if strStarts href "http" then href
  else if strStarts href "/" then BASE ++ href
  else BASE ++ "/" ++ href

/-- The literal gating marker for the critic-review link. -/
def critic_marker : String := "達人推薦"

/-- Python a.get("href") truthiness followed by absolute_url: some URL
only when the anchor carries a non-empty href. -/
def anchor_href_url (a : Node) : Option String :=
  match a.href with
  | some h => if h ≠ "" then some (absolute_url h) else none
  | none => none

/-- Strategy (a) of extract_critic_review_url: an h2/h3 heading whose
text contains the marker, then the first anchor after it, accepted only
when that anchor has a non-empty href. -/
def critic_from_header (doc : List Node) : Option String :=
  match after_first (fun n =>
      (n.tag == "h2" || n.tag == "h3")
      && strContains (stripText n) critic_marker) doc with
  | none => none
  | some rest =>
    match rest.find? (fun n => n.tag == "a") with
    | some a => anchor_href_url a
    | none => none

/-- Strategy (b) of extract_critic_review_url: the first anchor whose own
string contains the marker, accepted when it has a non-empty href. -/
def critic_from_anchor_text (doc : List Node) : Option String :=
  match doc.find? (fun n => n.tag == "a" && strContains n.text critic_marker) with
  | some a => anchor_href_url a
  | none => none

/-- Embeds extract_critic_review_url (src lines 412-433): absent unless
the marker occurs in the full document text, else strategy (a), else
strategy (b), else absent. -/
def extract_critic_review_url (doc : List Node) : Option String :=
  if strContains (docFullText doc) critic_marker then
    match critic_from_header doc with
    | some u => some u
    | none => critic_from_anchor_text doc
  else none

/-! ### JSON model and fuzzy integer search (src lines 231-276) -/

/-!
JSON values, with object and array spines as a mutual family so that all
recursions below are structural (and hence compute).  Python bools are a
separate constructor because fuzzy_find_int explicitly excludes them
from the numeric case.  Float leaves do not occur in the model; the
claims under study do not depend on them.
-/
mutual
inductive JVal where
  | jnull : JVal
  | jbool : Bool → JVal
  | jint : Int → JVal
  | jstr : String → JVal
  | jarr : JArr → JVal
  | jobj : JObj → JVal
inductive JArr where
  | nil : JArr
  | cons : JVal → JArr → JArr
inductive JObj where
  | nil : JObj
  | cons : String → JVal → JObj → JObj
end

/-- Key-path extension for a dict member (deep_iter_dict, src line 238). -/
def dotKey (path k : String) : String :=
  if path == "" then k else path ++ "." ++ k

/-- Key-path extension for a list member (deep_iter_dict, src line 242). -/
def idxKey (path : String) (i : Nat) : String :=
  path ++ "[" ++ toString i ++ "]"

/-!
deepLeaves embeds deep_iter_dict (src lines 231-245): all
(keypath, leaf) pairs of a nested structure.  The Python generator walks
an explicit stack and hence yields the same pairs in a different order;
every consumer in the script (fuzzy_find_int) is order-insensitive, so
the document-order traversal below collects exactly the same multiset of
pairs.
-/
mutual
def deepLeaves : String → JVal → List (String × JVal)
  | path, JVal.jobj kvs => deepObj path kvs
  | path, JVal.jarr xs => deepArr path 0 xs
  | path, v => [(path, v)]
def deepObj : String → JObj → List (String × JVal)
  | _, JObj.nil => []
  | path, JObj.cons k v rest => deepLeaves (dotKey path k) v ++ deepObj path rest
def deepArr : String → Nat → JArr → List (String × JVal)
  | _, _, JArr.nil => []
  | path, i, JArr.cons v rest => deepLeaves (idxKey path i) v ++ deepArr path (i + 1) rest
end

/-- The key-path filter of fuzzy_find_int: no exclude pattern occurs in
the lowered keypath and every include pattern does. -/
def keyOk (inc exc : List String) (kp : String) : Bool :=
  let kpl := strToLower kp
  (!exc.any (fun p => strContains kpl (strToLower p)))
  && inc.all (fun p => strContains kpl (strToLower p))

/-- The candidate a single leaf contributes in fuzzy_find_int: a numeric
leaf passes only when 0 ≤ n < 10^10 (bools are not numeric), a string
leaf passes through to_int with no range check, other leaves contribute
nothing. -/
def candOfLeaf (inc exc : List String) (kp : String) (v : JVal) : Option Int :=
  if keyOk inc exc kp then
    match v with
    | JVal.jint n => if 0 ≤ n ∧ n < 10 ^ 10 then some n else none
    | JVal.jstr s => (to_int s).map Int.ofNat
    | _ => none
  else none

/-- The full candidate list of fuzzy_find_int over all deep leaves. -/
def fuzzyCandidates (obj : JVal) (inc exc : List String) : List Int :=
  (deepLeaves "" obj).filterMap (fun p => candOfLeaf inc exc p.1 p.2)

/-- Embeds fuzzy_find_int (src lines 248-276): None when no candidate
survives, else the maximum candidate. -/
def fuzzy_find_int (obj : JVal) (inc exc : List String) : Option Int :=
  match fuzzyCandidates obj inc exc with
  | [] => none
  | c :: cs => some (cs.foldl max c)

/-! ### Likes/plays resolution (src lines 507-539 and 840-890) -/

/-- Python truthiness of an Optional[int]: None and 0 are falsy. -/
def pyTruthy : Option Int → Bool
  | none => false
  | some n => n != 0

/-- Python `a or b` on Optional[int] values. -/
def pyOr (a b : Option Int) : Option Int :=
  if pyTruthy a then a else b

/-- Python truthiness of a parsed JSON document: an empty dict (or other
empty value) is falsy. -/
def jTruthy : JVal → Bool
  | JVal.jnull => false
  | JVal.jbool b => b
  | JVal.jint n => n != 0
  | JVal.jstr s => s ≠ ""
  | JVal.jarr JArr.nil => false
  | JVal.jarr (JArr.cons _ _) => true
  | JVal.jobj JObj.nil => false
  | JVal.jobj (JObj.cons _ _ _) => true

/-- Python truthiness of an Optional[dict]. -/
def optJTruthy : Option JVal → Bool
  | none => false
  | some j => jTruthy j

/-- The likes chain over the API payload (src lines 516-520). -/
def apiLikes (api : JVal) : Option Int :=
  pyOr (pyOr (fuzzy_find_int api ["like"] ["comment", "reply", "dislike"])
             (fuzzy_find_int api ["favorite"] ["comment", "reply"]))
       (fuzzy_find_int api ["fav"] ["comment", "reply"])

/-- The plays chain over the API payload (src lines 521-525). -/
def apiPlays (api : JVal) : Option Int :=
  pyOr (pyOr (fuzzy_find_int api ["play"] ["display"])
             (fuzzy_find_int api ["listen"] []))
       (fuzzy_find_int api ["view"] ["review"])

/-- The likes chain over the NEXT_DATA blob (src lines 528-531). -/
def ndLikes (nd : JVal) : Option Int :=
  pyOr (fuzzy_find_int nd ["like"] ["comment", "reply", "dislike"])
       (fuzzy_find_int nd ["favorite"] ["comment", "reply"])

/-- The plays chain over the NEXT_DATA blob (src lines 533-537). -/
def ndPlays (nd : JVal) : Option Int :=
  pyOr (pyOr (fuzzy_find_int nd ["play"] ["display"])
             (fuzzy_find_int nd ["listen"] []))
       (fuzzy_find_int nd ["view"] ["review"])

/-- The API part of parse_counts: the chain runs only under
`if song_api:` (a missing or empty payload contributes nothing). -/
def apiLikesOpt : Option JVal → Option Int
  | some api => if jTruthy api then apiLikes api else none
  | none => none

/-- Plays from the API payload, gated like apiLikesOpt. -/
def apiPlaysOpt : Option JVal → Option Int
  | some api => if jTruthy api then apiPlays api else none
  | none => none

/-- The conditional NEXT_DATA reassignment for likes (src lines
527-531): `if not likes and nextdata`, i.e. it runs only when the current
value is falsy (None or 0) and the blob is truthy. -/
def ndStepLikes (likes : Option Int) (nextdata : Option JVal) : Option Int :=
  if !pyTruthy likes && optJTruthy nextdata then
    match nextdata with
    | some nd => ndLikes nd
    | none => likes
  else likes

/-- The conditional NEXT_DATA reassignment for plays (src lines
532-537), gated like ndStepLikes. -/
def ndStepPlays (plays : Option Int) (nextdata : Option JVal) : Option Int :=
  if !pyTruthy plays && optJTruthy nextdata then
    match nextdata with
    | some nd => ndPlays nd
    | none => plays
  else plays

/-- Embeds parse_counts_from_api_or_nextdata (src lines 507-539):
(likes, plays), each starting from the API chain and conditionally
reassigned from the NEXT_DATA blob. -/
def parse_counts_from_api_or_nextdata (song_api nextdata : Option JVal) :
    Option Int × Option Int :=
  (ndStepLikes (apiLikesOpt song_api) nextdata,
   ndStepPlays (apiPlaysOpt song_api) nextdata)

/-- Python `a if a is not None else b` (the Playwright merge). -/
def keepOr (a b : Option Int) : Option Int :=
  match a with
  | some x => some x
  | none => b

/-- The materialized inputs of the likes/plays portion of
scrape_song_page: the API payload, the NEXT_DATA blob, the degraded
marker `Cookie 已被禁用` detected in the page text, the two SSR label
reads stat_after_label("播放次數") / stat_after_label("喜歡"), and the
rendered-text fallback (none when Playwright is unavailable or raised;
some (likes, plays) when the rendered text was parsed). -/
structure SongCountsInput where
  song_api : Option JVal
  nextdata : Option JVal
  cookie_disabled : Bool
  plays0 : Option Int
  likes0 : Option Int
  pw : Option (Option Int × Option Int)

/-- One SSR reassignment of scrape_song_page (src lines 871-874):
`if v0 and v0 > 0: cur = v0` — the read value replaces the current one
only when strictly positive. -/
def ssrKeep (v0 cur : Option Int) : Option Int :=
  match v0 with
  | some v => if 0 < v then some v else cur
  | none => cur

/-- The SSR tier of scrape_song_page (src lines 854-874): entered only
when either count is still missing and the page is not cookie-degraded;
it then applies both reassignments (note: to both counts, not only the
missing one). -/
def ssrStage (inp : SongCountsInput) (lp : Option Int × Option Int) :
    Option Int × Option Int :=
  if (lp.1 = none ∨ lp.2 = none) ∧ inp.cookie_disabled = false then
    (ssrKeep inp.likes0 lp.1, ssrKeep inp.plays0 lp.2)
  else lp

/-- The rendered-text tier of scrape_song_page (src lines 877-885):
entered only when either count is still missing; each count keeps its
current value when present. -/
def pwStage (pw : Option (Option Int × Option Int))
    (lp : Option Int × Option Int) : Option Int × Option Int :=
  match pw with
  | none => lp
  | some (l2, p2) =>
    if lp.1 = none ∨ lp.2 = none then (keepOr lp.1 l2, keepOr lp.2 p2) else lp

/-- Embeds the likes/plays resolution of scrape_song_page (src lines
840-888): the API/NEXT_DATA chains, then the SSR stage, then the
rendered-text stage. -/
def resolve_song_counts (inp : SongCountsInput) : Option Int × Option Int :=
  pwStage inp.pw
    (ssrStage inp (parse_counts_from_api_or_nextdata inp.song_api inp.nextdata))

/-- The materialized inputs of the count portion of
scrape_artist_profile: the degraded marker, the three SSR label reads
stat_after("音樂") / stat_after("粉絲") / stat_after("追蹤中"), and the
rendered-text fallback. -/
structure ArtistCountsInput where
  cookie_disabled : Bool
  music0 : Option Int
  fans0 : Option Int
  following0 : Option Int
  pw : Option (Option Int × Option Int × Option Int)

/-- Embeds the music/fans/following resolution of scrape_artist_profile
(src lines 722-759): the three SSR reads are all discarded when the page
is cookie-degraded and any of them reads 0; the rendered-text fallback is
consulted when any value is still missing and fills only missing
values. -/
def resolve_artist_counts (inp : ArtistCountsInput) :
    Option Int × Option Int × Option Int :=
  let s0 : Option Int × Option Int × Option Int :=
    if inp.cookie_disabled
       && (inp.music0 == some 0 || inp.fans0 == some 0 || inp.following0 == some 0)
    then (none, none, none)
    else (inp.music0, inp.fans0, inp.following0)
  match inp.pw with
  | none => s0
  | some (m2, f2, fo2) =>
    if s0.1 = none ∨ s0.2.1 = none ∨ s0.2.2 = none then
      (keepOr s0.1 m2, keepOr s0.2.1 f2, keepOr s0.2.2 fo2)
    else s0

/-! ### Chart listing extraction (src lines 586-633) -/

/-- An anchor inside a candidate container: its href attribute and
visible text, as consumed by the artist-link selector. -/
structure CAnchor where
  href : String
  text : String
deriving DecidableEq

/-- The nearest li/div/tr container of a chart anchor: its stripped
strings and its own anchors, in document order. -/
structure Container where
  lines : List String
  anchors : List CAnchor
deriving DecidableEq

/-- One anchor of the chart listing document, as seen by the
select('a[href*="/songs/"]') loop: its href (the empty string models a
missing attribute, which Python treats as falsy), its stripped label
text, and its container when one exists. -/
structure ChartAnchor where
  href : String
  text : String
  container : Option Container
deriving DecidableEq

/-- Match of the regex /songs/(\d+)/ at the head of the list: the
literal, a nonempty maximal digit run, a slash. -/
def matchSongIdAt (cs : List Char) : Option Nat :=
  if charsPre "/songs/".toList cs then
    let rest := cs.drop "/songs/".toList.length
    let ds := rest.takeWhile Char.isDigit
    match rest.dropWhile Char.isDigit with
    | '/' :: _ => if ds.isEmpty then none else some (digitsVal ds)
    | _ => none
  else none

/-- re.search of /songs/(\d+)/: first match anywhere in the URL. -/
def findSongId : List Char → Option Nat
  | [] => none
  | c :: cs =>
    match matchSongIdAt (c :: cs) with
    | some n => some n
    | none => findSongId cs

/-- One chart tuple as built by scrape_chart:
(rank, song_title, artist_name, song_url, artist_url). -/
abbrev ChartItem := Nat × String × String × String × String

/-- The per-anchor body of the scrape_chart loop: skip when the href is
falsy or the song-id regex fails; otherwise build the rank-0 tuple from
the anchor label (or the first container line), and the first container
anchor matching the artist selector (root-relative, slash-terminated,
not a song link). -/
def chart_item_of (a : ChartAnchor) : Option ChartItem :=
  if a.href == "" then none
  else
    let song_url := absolute_url a.href
    match findSongId song_url.toList with
    | none => none
    | some _ =>
      let text_lines :=
        match a.container with
        | some c => (c.lines.map pyStrip).filter (fun t => t ≠ "")
        | none => []
      let song_title := if a.text ≠ "" then a.text else text_lines.headD ""
      let au_an : String × String :=
        match a.container with
        | none => ("", "")
        | some c =>
          match c.anchors.find? (fun ca =>
              strStarts ca.href "/" && strEnds ca.href "/"
              && !strContains ca.href "/songs/") with
          | some ca => if ca.href ≠ "" then (absolute_url ca.href, ca.text) else ("", "")
          | none => ("", "")
      some (0, song_title, au_an.2, song_url, au_an.1)

/-- The scrape_chart collection loop over the anchors selected by
a[href*="/songs/"]; n is the number of items already accepted, and the
limit test runs after each append, exactly as in the source. -/
def chart_items (limit : Nat) : Nat → List ChartAnchor → List ChartItem
  | _, [] => []
  | n, a :: rest =>
    if strContains a.href "/songs/" then
      match chart_item_of a with
      | none => chart_items limit n rest
      | some it =>
        it :: (if limit ≤ n + 1 then [] else chart_items limit (n + 1) rest)
    else chart_items limit n rest

/-- Embeds scrape_chart (src lines 586-633): collect the items, then
re-rank them sequentially from 1 in discovery order. -/
def scrape_chart (doc : List ChartAnchor) (limit : Nat) : List ChartItem :=
  (List.enumFrom 1 (chart_items limit 0 doc)).map (fun p => (p.1, p.2.2))

/-! ### Social-link blacklist (src lines 79-88 and 182-188) -/

/-- The SOCIAL_BLACKLIST_SUBSTR constant (src lines 79-87).  The Python
value is a set literal; the model lists its elements in source order,
and the order-independence of every use is proved below. -/
def SOCIAL_BLACKLIST_SUBSTR : List String :=
  ["facebook.com/StreetVoiceTaiwan",
   "m.facebook.com/StreetVoiceTaiwan",
   "instagram.com/streetvoice",
   "instagram.com/streetvoice_taiwan",
   "youtube.com/StreetVoiceTV",
   "youtube.com/@StreetVoiceTV",
   "youtube.com/channel/UC"]

/-- Embeds is_blacklisted_social (src lines 182-188), parameterized by
the blacklist contents: a falsy URL is blacklisted, else the first-match
loop over the set, which is an existence test. -/
def is_blacklisted_social (blacklist : List String) (url : String) : Bool :=
  if url == "" then true
  else blacklist.any (fun bad => strContains (strToLower url) (strToLower bad))

/-! ### Output record schema (src lines 103-141 and 994-1006) -/

/-- A CSV cell value as produced by asdict: a string, an int, a bool, or
Python None. -/
inductive Cell where
  | cstr : String → Cell
  | cint : Int → Cell
  | cbool : Bool → Cell
  | cnone : Cell
deriving DecidableEq

/-- Cell of an Optional[str] field. -/
def optStrCell : Option String → Cell
  | some s => Cell.cstr s
  | none => Cell.cnone

/-- Cell of an Optional[int] field. -/
def optIntCell : Option Int → Cell
  | some n => Cell.cint n
  | none => Cell.cnone

/-- Cell of an Optional[bool] field. -/
def optBoolCell : Option Bool → Cell
  | some b => Cell.cbool b
  | none => Cell.cnone

/-- Embeds the Row dataclass (src lines 103-141), one field per declared
column, in declaration order. -/
structure Row where
  snapshot_time : String
  rank : Int
  song_title : String
  artist_name : String
  likes_count : Option Int
  song_url : String
  artist_url : String
  cover_image_url : Option String
  artist_handle : Option String
  artist_identity : Option String
  artist_city : Option String
  artist_joined_date : Option String
  artist_music_count : Option Int
  artist_fans_count : Option Int
  artist_following_count : Option Int
  artist_facebook_url : Option String
  artist_instagram_url : Option String
  artist_youtube_url : Option String
  artist_accredited_datetime : Option String
  play_count : Option Int
  genre : Option String
  description : Option String
  lyrics : Option String
  release_date : Option String
  collaborators : Option String
  album_title : Option String
  album_url : Option String
  comments_count : Option Int
  is_editor_recommended : Option Bool
  is_song_of_the_day : Option Bool
  critic_review_url : Option String
  song_accredited_datetime : Option String
deriving DecidableEq

/-- Embeds dataclasses.asdict on a Row: the ordered (key, value) pairs,
every declared field always written. -/
def asdictRow (r : Row) : List (String × Cell) :=
  [("snapshot_time", Cell.cstr r.snapshot_time),
   ("rank", Cell.cint r.rank),
   ("song_title", Cell.cstr r.song_title),
   ("artist_name", Cell.cstr r.artist_name),
   ("likes_count", optIntCell r.likes_count),
   ("song_url", Cell.cstr r.song_url),
   ("artist_url", Cell.cstr r.artist_url),
   ("cover_image_url", optStrCell r.cover_image_url),
   ("artist_handle", optStrCell r.artist_handle),
   ("artist_identity", optStrCell r.artist_identity),
   ("artist_city", optStrCell r.artist_city),
   ("artist_joined_date", optStrCell r.artist_joined_date),
   ("artist_music_count", optIntCell r.artist_music_count),
   ("artist_fans_count", optIntCell r.artist_fans_count),
   ("artist_following_count", optIntCell r.artist_following_count),
   ("artist_facebook_url", optStrCell r.artist_facebook_url),
   ("artist_instagram_url", optStrCell r.artist_instagram_url),
   ("artist_youtube_url", optStrCell r.artist_youtube_url),
   ("artist_accredited_datetime", optStrCell r.artist_accredited_datetime),
   ("play_count", optIntCell r.play_count),
   ("genre", optStrCell r.genre),
   ("description", optStrCell r.description),
   ("lyrics", optStrCell r.lyrics),
   ("release_date", optStrCell r.release_date),
   ("collaborators", optStrCell r.collaborators),
   ("album_title", optStrCell r.album_title),
   ("album_url", optStrCell r.album_url),
   ("comments_count", optIntCell r.comments_count),
   ("is_editor_recommended", optBoolCell r.is_editor_recommended),
   ("is_song_of_the_day", optBoolCell r.is_song_of_the_day),
   ("critic_review_url", optStrCell r.critic_review_url),
   ("song_accredited_datetime", optStrCell r.song_accredited_datetime)]

/-- The declared column names, in dataclass order (the
Row.__dataclass_fields__ fallback of src line 995). -/
def rowFieldnames : List String :=
  ["snapshot_time", "rank", "song_title", "artist_name", "likes_count",
   "song_url", "artist_url", "cover_image_url", "artist_handle",
   "artist_identity", "artist_city", "artist_joined_date",
   "artist_music_count", "artist_fans_count", "artist_following_count",
   "artist_facebook_url", "artist_instagram_url", "artist_youtube_url",
   "artist_accredited_datetime", "play_count", "genre", "description",
   "lyrics", "release_date", "collaborators", "album_title", "album_url",
   "comments_count", "is_editor_recommended", "is_song_of_the_day",
   "critic_review_url", "song_accredited_datetime"]

/-- The string normalization applied to each cell before writerow (src
lines 1001-1005): string values pass through clean_text (becoming None
when empty), all other values are untouched. -/
def normalizeCell : Cell → Cell
  | Cell.cstr s =>
    match clean_text s with
    | some t => Cell.cstr t
    | none => Cell.cnone
  | c => c

/-- The dictionary actually passed to writerow for one row. -/
def write_dict (r : Row) : List (String × Cell) :=
  (asdictRow r).map (fun kv => (kv.1, normalizeCell kv.2))

/-- The fieldnames chosen by main (src line 995): the first row's asdict
keys, or the dataclass field names when there are no rows. -/
def main_fieldnames (rows : List Row) : List String :=
  match rows with
  | [] => rowFieldnames
  | r :: _ => (asdictRow r).map Prod.fst

/-! ### The per-item driver loop of main (src lines 921-981) -/

/-- The row-assembly loop of main over the chart items.  The per-item
work (scrape_song_page, scrape_artist_profile, Row construction) is a
fallible computation modelled with Except: the source loop contains no
try/except, so an error raised by the per-item work propagates out of
the whole loop, while a normal result is appended and iteration
continues. -/
def main_rows_loop (perItem : ChartItem → Except String Row) :
    List ChartItem → Except String (List Row)
  | [] => Except.ok []
  | it :: rest =>
    match perItem it with
    | Except.error e => Except.error e
    | Except.ok r =>
      match main_rows_loop perItem rest with
      | Except.error e => Except.error e
      | Except.ok rs => Except.ok (r :: rs)


/-! ### Concrete fixtures used by the claim theorems -/

/-- Total text budget of a document: the sum of the raw node text
lengths plus one separator per node. -/
def docTextBudget (doc : List Node) : Nat :=
  (doc.map (fun n => n.text.length)).sum + doc.length

/-- The document exhibiting the comment-section leak of claim C2: a
description section followed by a comment section whose heading is an h3
(a heading level parse_comments_count itself recognizes as the comment
heading), with no intervening h2. -/
def exC2Doc : List Node :=
  [⟨"h2", "介紹", none, none⟩, ⟨"p", "nice song", none, none⟩,
   ⟨"h3", "留言（2）", none, none⟩, ⟨"p", "spam comment", none, none⟩]

/-- The pathological document for claim C10: a section heading followed
by a 13000-character paragraph. -/
def exCapDoc : List Node :=
  [⟨"h2", "介紹", none, none⟩,
   ⟨"p", String.mk (List.replicate 13000 'a'), none, none⟩]

/-- An all-absent row used to exercise the driver loop. -/
def exDummyRow : Row :=
  ⟨"", 1, "", "", none, "", "", none, none, none, none, none, none, none, none,
   none, none, none, none, none, none, none, none, none, none, none, none, none,
   none, none, none, none⟩

/-- A per-item computation failing on the first rank only. -/
def exPerItem : ChartItem → Except String Row := fun it =>
  if it.1 = 1 then Except.error "parse error" else Except.ok exDummyRow

/-! ### Helper lemmas -/

/-- dropWhile is the identity when no element satisfies the predicate. -/
theorem dropWhile_eq_self_of_none {p : Char → Bool} :
    ∀ {l : List Char}, (∀ c ∈ l, p c = false) → l.dropWhile p = l
  | [], _ => rfl
  | c :: cs, h => by
    have hc : p c = false := h c (List.mem_cons_self c cs)
    simp [List.dropWhile_cons, hc]

/-- pyStripL is the identity on whitespace-free lists. -/
theorem pyStripL_eq_self_of_noWs {l : List Char}
    (h : ∀ c ∈ l, pyIsSpace c = false) : pyStripL l = l := by
  unfold pyStripL
  rw [dropWhile_eq_self_of_none h]
  rw [dropWhile_eq_self_of_none (fun c hc => h c (List.mem_reverse.mp hc))]
  exact List.reverse_reverse l

/-- The first clean_text substitution is the identity on whitespace-free
lists. -/
theorem sub_ws_nl_eq_self_of_noWs :
    ∀ {l : List Char}, (∀ c ∈ l, pyIsSpace c = false) → sub_ws_nl l = l
  | [], _ => rfl
  | c :: cs, h => by
    have hc : pyIsSpace c = false := h c (List.mem_cons_self c cs)
    have ih := sub_ws_nl_eq_self_of_noWs (fun x hx => h x (List.mem_cons_of_mem c hx))
    simp [sub_ws_nl, hc, ih]

/-- The second clean_text substitution is the identity on whitespace-free
lists (a newline is whitespace). -/
theorem sub_nl3Aux_eq_self_of_noWs :
    ∀ {l : List Char}, (∀ c ∈ l, pyIsSpace c = false) → ∀ k, sub_nl3Aux k l = l
  | [], _, _ => rfl
  | c :: cs, h, k => by
    have hc : pyIsSpace c = false := h c (List.mem_cons_self c cs)
    have hnl : (c == '\n') = false := by
      cases he : c == '\n'
      · rfl
      · exfalso
        have : c = '\n' := by exact beq_iff_eq.mp he
        subst this
        simp [pyIsSpace] at hc
    have ih := sub_nl3Aux_eq_self_of_noWs (fun x hx => h x (List.mem_cons_of_mem c hx))
    simp [sub_nl3Aux, hnl, ih]

/-- clean_text fixes any nonempty whitespace-free string. -/
theorem clean_text_eq_self_of_noWs {l : List Char}
    (h : ∀ c ∈ l, pyIsSpace c = false) (hne : l ≠ []) :
    clean_text (String.mk l) = some (String.mk l) := by
  unfold clean_text
  have h1 : sub_ws_nl (String.mk l).toList = l := by
    simpa using sub_ws_nl_eq_self_of_noWs h
  rw [h1, sub_nl3Aux_eq_self_of_noWs h 0, pyStripL_eq_self_of_noWs h]
  simp [hne]

/-- Length of dropWhile never exceeds the input length. -/
theorem length_dropWhile_le' (p : Char → Bool) :
    ∀ l : List Char, (l.dropWhile p).length ≤ l.length
  | [] => Nat.le_refl 0
  | c :: cs => by
    by_cases hc : p c
    · simp only [List.dropWhile_cons_of_pos hc]
      exact Nat.le_succ_of_le (length_dropWhile_le' p cs)
    · simp [List.dropWhile_cons_of_neg hc]

/-- pyStripL never lengthens a list. -/
theorem length_pyStripL_le (l : List Char) : (pyStripL l).length ≤ l.length := by
  unfold pyStripL
  calc ((l.dropWhile pyIsSpace).reverse.dropWhile pyIsSpace).reverse.length
      = ((l.dropWhile pyIsSpace).reverse.dropWhile pyIsSpace).length := by
        exact List.length_reverse _
    _ ≤ (l.dropWhile pyIsSpace).reverse.length := length_dropWhile_le' _ _
    _ = (l.dropWhile pyIsSpace).length := List.length_reverse _
    _ ≤ l.length := length_dropWhile_le' _ _

/-- The first clean_text substitution never lengthens a list. -/
theorem length_sub_ws_nl_le : ∀ l : List Char, (sub_ws_nl l).length ≤ l.length
  | [] => Nat.le_refl 0
  | c :: cs => by
    simp only [sub_ws_nl]
    by_cases h : pyIsSpace c && wsRunHasNl cs
    · simp only [if_pos h]
      exact Nat.le_succ_of_le (length_sub_ws_nl_le cs)
    · simp only [if_neg h, List.length_cons]
      exact Nat.succ_le_succ (length_sub_ws_nl_le cs)

/-- The second clean_text substitution never lengthens a list. -/
theorem length_sub_nl3Aux_le : ∀ (l : List Char) (k : Nat),
    (sub_nl3Aux k l).length ≤ l.length
  | [], _ => Nat.le_refl 0
  | c :: cs, k => by
    simp only [sub_nl3Aux]
    by_cases h : c == '\n'
    · simp only [if_pos h]
      by_cases h2 : 2 ≤ k
      · simp only [if_pos h2]
        exact Nat.le_succ_of_le (length_sub_nl3Aux_le cs (k + 1))
      · simp only [if_neg h2, List.length_cons]
        exact Nat.succ_le_succ (length_sub_nl3Aux_le cs (k + 1))
    · simp only [if_neg h, List.length_cons]
      exact Nat.succ_le_succ (length_sub_nl3Aux_le cs 0)

/-- Length of a string built by String.mk. -/
theorem length_mk (l : List Char) : (String.mk l).length = l.length := rfl

/-- Length of toList equals the string length. -/
theorem length_toList (s : String) : s.toList.length = s.length := rfl

/-- clean_text never lengthens its input. -/
theorem clean_text_length_le {s t : String} (h : clean_text s = some t) :
    t.length ≤ s.length := by
  simp only [clean_text] at h
  split at h
  · cases h
  · have ht := Option.some.inj h
    have hl : t.length = (pyStripL (sub_nl3Aux 0 (sub_ws_nl s.toList))).length := by
      rw [← ht]
      exact String.length_mk _
    rw [hl]
    calc (pyStripL (sub_nl3Aux 0 (sub_ws_nl s.toList))).length
        ≤ (sub_nl3Aux 0 (sub_ws_nl s.toList)).length := length_pyStripL_le _
      _ ≤ (sub_ws_nl s.toList).length := length_sub_nl3Aux_le _ _
      _ ≤ s.toList.length := length_sub_ws_nl_le _
      _ = s.length := rfl

/-- Length of a newline join, bounded by total part length plus count. -/
theorem joinNl_length_le : ∀ ps : List String,
    (joinNl ps).length ≤ (ps.map String.length).sum + ps.length
  | [] => by simp [joinNl]
  | [s] => by simp [joinNl]
  | s :: t :: rest => by
    have ih := joinNl_length_le (t :: rest)
    have hnl : ("\n" : String).length = 1 := rfl
    simp only [joinNl, String.length_append, hnl, List.map_cons, List.sum_cons,
      List.length_cons] at ih ⊢
    omega

/-- The left fold of max starts at or above its initial value. -/
theorem le_foldl_max_init : ∀ (cs : List Int) (c : Int), c ≤ cs.foldl max c
  | [], _ => Int.le_refl _
  | a :: cs, c => by
    have h1 : c ≤ max c a := le_max_left c a
    exact Int.le_trans h1 (le_foldl_max_init cs (max c a))

/-- The left fold of max dominates every list element. -/
theorem le_foldl_max_of_mem : ∀ (cs : List Int) (c x : Int), x ∈ cs → x ≤ cs.foldl max c
  | [], _, _, hx => absurd hx (List.not_mem_nil _)
  | a :: cs, c, x, hx => by
    rcases List.mem_cons.mp hx with h | h
    · subst h
      exact Int.le_trans (le_max_right c x) (le_foldl_max_init cs (max c x))
    · exact le_foldl_max_of_mem cs (max c a) x h

/-- The left fold of max is the initial value or a list element. -/
theorem foldl_max_mem : ∀ (cs : List Int) (c : Int),
    cs.foldl max c = c ∨ cs.foldl max c ∈ cs
  | [], _ => Or.inl rfl
  | a :: cs, c => by
    rcases foldl_max_mem cs (max c a) with h | h
    · rcases max_choice c a with hm | hm
      · exact Or.inl (by rw [List.foldl_cons, h, hm])
      · refine Or.inr ?_
        rw [List.foldl_cons, h, hm]
        exact List.mem_cons_self a cs
    · exact Or.inr (List.mem_cons_of_mem a h)

/-- Ranks produced by enumFrom are the consecutive naturals. -/
theorem enumFrom_map_fst : ∀ (n : Nat) (l : List ChartItem),
    (List.enumFrom n l).map Prod.fst = List.range' n l.length
  | _, [] => rfl
  | n, a :: l => by
    simp only [List.enumFrom, List.map_cons, List.length_cons, List.range'_succ]
    exact congrArg (n :: ·) (enumFrom_map_fst (n + 1) l)

/-- Bool any over a list is invariant under permutation. -/
theorem perm_any_eq {l l' : List String} (h : l.Perm l') (p : String → Bool) :
    l.any p = l'.any p := by
  cases hb : l'.any p
  · cases hb2 : l.any p
    · rfl
    · rcases List.any_eq_true.mp hb2 with ⟨x, hx, hpx⟩
      have : l'.any p = true := List.any_eq_true.mpr ⟨x, h.mem_iff.mp hx, hpx⟩
      rw [this] at hb
      cases hb
  · rcases List.any_eq_true.mp hb with ⟨x, hx, hpx⟩
    exact List.any_eq_true.mpr ⟨x, h.mem_iff.mpr hx, hpx⟩

/-- Stripping never lengthens a node text. -/
theorem stripText_length_le (n : Node) : (stripText n).length ≤ n.text.length := by
  unfold stripText pyStrip
  rw [String.length_mk]
  calc (pyStripL n.text.toList).length ≤ n.text.toList.length := length_pyStripL_le _
    _ = n.text.length := rfl

/-- The collected section parts fit in the budget of the walked nodes. -/
theorem collect_parts_budget : ∀ rest : List Node,
    ((collect_parts rest).map String.length).sum + (collect_parts rest).length
      ≤ docTextBudget rest
  | [] => by simp [collect_parts, docTextBudget]
  | sib :: rest => by
    have ih := collect_parts_budget rest
    have hle := stripText_length_le sib
    simp only [collect_parts, docTextBudget, List.map_cons, List.sum_cons, List.length_cons]
    by_cases h1 : sib.tag == "h2"
    · simp only [if_pos h1, List.map_nil, List.sum_nil, List.length_nil]
      omega
    · simp only [if_neg h1]
      by_cases h2 : (sib.tag == "h1" || sib.tag == "h2")
          && strContains (stripText sib) "留言（"
      · simp only [if_pos h2, List.map_nil, List.sum_nil, List.length_nil]
        omega
      · simp only [if_neg h2]
        by_cases h3 : stripText sib == ""
        · simp only [if_pos h3]
          simp only [docTextBudget] at ih
          omega
        · simp only [if_neg h3, List.map_cons, List.sum_cons, List.length_cons]
          simp only [docTextBudget] at ih
          omega

/-- Walking past the start node never enlarges the budget. -/
theorem after_first_budget {p : Node → Bool} : ∀ {doc rest : List Node},
    after_first p doc = some rest → docTextBudget rest ≤ docTextBudget doc
  | [], _, h => by cases h
  | n :: doc, rest, h => by
    simp only [after_first] at h
    by_cases hp : p n
    · rw [if_pos hp] at h
      have := Option.some.inj h
      subst this
      simp only [docTextBudget, List.map_cons, List.sum_cons, List.length_cons]
      omega
    · rw [if_neg hp] at h
      have ih := after_first_budget h
      simp only [docTextBudget, List.map_cons, List.sum_cons, List.length_cons] at ih ⊢
      omega

/-! ### Claim theorems -/

/-- Claim C2 (code_bug evaluation): section extraction walks straight
through an h3 comment-section heading — the hard stop tests only h2 (any
text) and h1/h2 (comment label), so the extracted section contains the
comment heading and the comment body, although parse_comments_count
recognizes that same h3 as the comment-section heading. -/
theorem C2_comment_leak_eval :
    section_text_by_h2 exC2Doc "介紹" = some "nice song\n留言（2）\nspam comment"
    ∧ parse_comments_count exC2Doc = some 2 := by decide

/-- Claim C4: within a structured source the resolver deep-scans all key
paths; int candidates outside [0, 10^10) are discarded; string
candidates are digit-stripped and accepted with no range check; the
result is absent exactly when no candidate survives and is otherwise the
maximum surviving candidate. -/
theorem C4_fuzzy_max_and_range (obj : JVal) (inc exc : List String) :
    (fuzzy_find_int obj inc exc = none ↔ fuzzyCandidates obj inc exc = [])
    ∧ (∀ r : Int, fuzzy_find_int obj inc exc = some r →
        r ∈ fuzzyCandidates obj inc exc ∧ ∀ c ∈ fuzzyCandidates obj inc exc, c ≤ r)
    ∧ (∀ (kp : String) (n : Int), (n < 0 ∨ 10 ^ 10 ≤ n) →
        candOfLeaf inc exc kp (JVal.jint n) = none)
    ∧ (∀ kp s, candOfLeaf inc exc kp (JVal.jstr s)
        = if keyOk inc exc kp then (to_int s).map Int.ofNat else none) := by
  refine ⟨?_, ?_, ?_, ?_⟩
  · unfold fuzzy_find_int
    cases h : fuzzyCandidates obj inc exc with
    | nil => simp
    | cons c cs => simp
  · intro r hr
    unfold fuzzy_find_int at hr
    cases h : fuzzyCandidates obj inc exc with
    | nil => rw [h] at hr; cases hr
    | cons c cs =>
      rw [h] at hr
      have hr2 := Option.some.inj hr
      constructor
      · rw [← hr2]
        rcases foldl_max_mem cs c with hm | hm
        · rw [hm]; exact List.mem_cons_self c cs
        · exact List.mem_cons_of_mem c hm
      · intro x hx
        rw [← hr2]
        rcases List.mem_cons.mp hx with h1 | h1
        · subst h1; exact le_foldl_max_init cs x
        · exact le_foldl_max_of_mem cs c x h1
  · intro kp n hn
    have hpow : (10 : Int) ^ 10 = 10000000000 := by norm_num
    have hcon : ¬(0 ≤ n ∧ n < 10 ^ 10) := by
      rw [hpow]
      rw [hpow] at hn
      rcases hn with h | h
      · intro hc; omega
      · intro hc; omega
    unfold candOfLeaf
    by_cases hk : keyOk inc exc kp
    · rw [if_pos hk]
      show (if 0 ≤ n ∧ n < 10 ^ 10 then some n else none) = none
      exact if_neg hcon
    · rw [if_neg hk]
  · intro kp s
    rfl

/-- Witness for C4 on a nested payload: the theorem's max clause applied
to a concrete deep object. -/
theorem C4_fuzzy_max_and_range_witness :
    (7 : Int) ∈ fuzzyCandidates
      (JVal.jobj (JObj.cons "a"
        (JVal.jobj (JObj.cons "like_count" (JVal.jint 7) JObj.nil)) JObj.nil))
      ["like"] [] := by
  have h := (C4_fuzzy_max_and_range
      (JVal.jobj (JObj.cons "a"
        (JVal.jobj (JObj.cons "like_count" (JVal.jint 7) JObj.nil)) JObj.nil))
      ["like"] []).2.1 7 (by decide)
  exact h.1

/-- Counterexample for C4 as stated: a numeric-string candidate larger
than 10^10 is not discarded — it is returned as the resolved value. -/
theorem C4_string_over_range_cex :
    fuzzy_find_int
      (JVal.jobj (JObj.cons "like" (JVal.jstr "100000000000") JObj.nil)) ["like"] []
      = some 100000000000
    ∧ (10 ^ 10 : Int) < 100000000000 := by
  constructor
  · decide
  · norm_num

/-- Counterexample for C5 as stated: a listing with the same identity
key (same song URL) twice yields two entries at ranks 1 and 2; no
deduplication happens. -/
theorem C5_duplicate_identity_cex :
    scrape_chart [⟨"/x/songs/123/", "Song", none⟩, ⟨"/x/songs/123/", "Song", none⟩] 50
      = [(1, "Song", "", "https://streetvoice.com/x/songs/123/", ""),
         (2, "Song", "", "https://streetvoice.com/x/songs/123/", "")] := by decide

/-- Claim C5 (amended part): ranks are assigned sequentially from 1 in
discovery order over the accepted anchors, duplicates included. -/
theorem C5_sequential_ranks (doc : List ChartAnchor) (limit : Nat) :
    (scrape_chart doc limit).map Prod.fst
      = List.range' 1 (scrape_chart doc limit).length := by
  have hlen : (scrape_chart doc limit).length = (chart_items limit 0 doc).length := by
    unfold scrape_chart
    rw [List.length_map, List.enumFrom_length]
  rw [hlen]
  unfold scrape_chart
  rw [List.map_map]
  have hcomp : (Prod.fst ∘ fun p : Nat × ChartItem => (p.1, p.2.2))
      = (Prod.fst : Nat × ChartItem → Nat) := by
    funext p
    rfl
  rw [hcomp]
  exact enumFrom_map_fst 1 (chart_items limit 0 doc)

/-- Claim C9: every declared schema field is always present as a key, in
the asdict record, in the normalized dict passed to writerow, and in the
fieldnames chosen by main; hence the key set is identical across all
rows of a run. -/
theorem C9_schema_shape_fixed :
    (∀ r : Row, (asdictRow r).map Prod.fst = rowFieldnames)
    ∧ (∀ r : Row, (write_dict r).map Prod.fst = rowFieldnames)
    ∧ (∀ rows : List Row, main_fieldnames rows = rowFieldnames) := by
  refine ⟨fun r => rfl, fun r => rfl, fun rows => ?_⟩
  cases rows with
  | nil => rfl
  | cons r rs => rfl

/-- The single-paragraph walk: a lone p node with nonempty stripped text
contributes exactly its stripped text. -/
theorem collect_parts_single_p (t : String)
    (h : stripText ⟨"p", t, none, none⟩ ≠ "") :
    collect_parts [⟨"p", t, none, none⟩] = [stripText ⟨"p", t, none, none⟩] := by
  have hb : (stripText ⟨"p", t, none, none⟩ == "") = false := by
    cases hx : stripText ⟨"p", t, none, none⟩ == ""
    · rfl
    · exact absurd (beq_iff_eq.mp hx) h
  have hc2 : ¬(((("p" : String) == "h1" || ("p" : String) == "h2")
      && strContains (stripText ⟨"p", t, none, none⟩) "留言（") = true) := by
    intro hx
    rw [show ((("p" : String) == "h1") || (("p" : String) == "h2")) = false from rfl,
      Bool.false_and] at hx
    exact Bool.false_ne_true hx
  have hc3 : ¬((stripText ⟨"p", t, none, none⟩ == "") = true) := by
    rw [hb]
    exact Bool.false_ne_true
  unfold collect_parts
  rw [if_neg (by decide : ¬((("p" : String) == "h2") = true))]
  rw [if_neg hc2]
  show (if (stripText ⟨"p", t, none, none⟩ == "") = true
      then collect_parts [] else stripText ⟨"p", t, none, none⟩ :: collect_parts []) = _
  rw [if_neg hc3]
  rfl

/-- Counterexample for C10 as stated: the extracted section text of
exCapDoc is 13000 characters long — no 12,000-character budget is
applied anywhere in section_text_by_h2. -/
theorem C10_no_cap_cex :
    ∃ s, section_text_by_h2 exCapDoc "介紹" = some s ∧ 12000 < s.length := by
  have hnb : ∀ c ∈ List.replicate 13000 'a', pyIsSpace c = false := by
    intro c hc
    have hc2 := (List.mem_replicate.mp hc).2
    subst hc2
    rfl
  have hs : stripText ⟨"p", String.mk (List.replicate 13000 'a'), none, none⟩
      = String.mk (List.replicate 13000 'a') := by
    show String.mk (pyStripL (List.replicate 13000 'a')) = _
    rw [pyStripL_eq_self_of_noWs hnb]
  have hfind : find_h2_after "介紹" exCapDoc
      = some [⟨"p", String.mk (List.replicate 13000 'a'), none, none⟩] := by
    have hp : (("h2" : String) == "h2"
        && strStarts (stripText ⟨"h2", "介紹", none, none⟩) "介紹") = true := by decide
    simp only [exCapDoc, find_h2_after, after_first, hp, if_true]
  have hne : stripText ⟨"p", String.mk (List.replicate 13000 'a'), none, none⟩ ≠ "" := by
    rw [hs]
    intro hcontra
    have hd : List.replicate 13000 'a' = ([] : List Char) := congrArg String.data hcontra
    have hlen := congrArg List.length hd
    rw [List.length_replicate, List.length_nil] at hlen
    exact absurd hlen (by norm_num)
  have hcol := collect_parts_single_p (String.mk (List.replicate 13000 'a')) hne
  refine ⟨String.mk (List.replicate 13000 'a'), ?_, ?_⟩
  · unfold section_text_by_h2
    rw [hfind]
    show clean_text (joinNl
        (collect_parts [⟨"p", String.mk (List.replicate 13000 'a'), none, none⟩]))
      = some (String.mk (List.replicate 13000 'a'))
    rw [hcol, hs]
    show clean_text (String.mk (List.replicate 13000 'a'))
      = some (String.mk (List.replicate 13000 'a'))
    refine clean_text_eq_self_of_noWs hnb ?_
    intro hcontra
    have hlen := congrArg List.length hcontra
    rw [List.length_replicate, List.length_nil] at hlen
    exact absurd hlen (by norm_num)
  · rw [String.length_mk, List.length_replicate]
    norm_num

/-- Claim C10 (amended): section extraction applies no fixed budget; its
output length is bounded only by the document itself — the total raw
text length plus one separator per node. -/
theorem C10_length_bounded_by_doc (doc : List Node) (pfx s : String)
    (h : section_text_by_h2 doc pfx = some s) :
    s.length ≤ docTextBudget doc := by
  unfold section_text_by_h2 at h
  cases hf : find_h2_after pfx doc with
  | none => rw [hf] at h; cases h
  | some rest =>
    rw [hf] at h
    have h1 : s.length ≤ (joinNl (collect_parts rest)).length := clean_text_length_le h
    have h2 := joinNl_length_le (collect_parts rest)
    have h3 := collect_parts_budget rest
    have h4 : docTextBudget rest ≤ docTextBudget doc := by
      unfold find_h2_after at hf
      exact after_first_budget hf
    omega

/-- Witness for C10's amended bound at a concrete two-node document. -/
theorem C10_length_bounded_by_doc_witness :
    ("hi" : String).length
      ≤ docTextBudget [⟨"h2", "介紹", none, none⟩, ⟨"p", "hi", none, none⟩] :=
  C10_length_bounded_by_doc
    [⟨"h2", "介紹", none, none⟩, ⟨"p", "hi", none, none⟩] "介紹" "hi" (by decide)

/-- Counterexample for C1 as stated: a zero offered by the SSR markup
tier of a NON-degraded song page (cookie_disabled = false, likes0 = 0,
no other tier contributing) is not accepted as the genuine value — the
resolver keeps only strictly positive SSR values and the field ends
absent. -/
theorem C1_nondegraded_zero_cex :
    (⟨none, none, false, none, some 0, none⟩ : SongCountsInput).cookie_disabled = false
    ∧ (⟨none, none, false, none, some 0, none⟩ : SongCountsInput).likes0 = some 0
    ∧ resolve_song_counts ⟨none, none, false, none, some 0, none⟩ = (none, none) := by
  refine ⟨rfl, rfl, by decide⟩

/-- Claim C1 (amended): in the artist resolver a degraded-page zero
discards the whole SSR tier (falling through to the rendered-text
fallback) while a non-degraded zero is accepted; in the song resolver an
SSR zero is never accepted even on a non-degraded page; and a resolver
whose tiers all contribute nothing yields absent, never a defaulted
zero. -/
theorem C1_ambiguous_zero_amended :
    (∀ inp : ArtistCountsInput, inp.cookie_disabled = true → inp.music0 = some 0 →
      resolve_artist_counts inp
        = (match inp.pw with
           | none => (none, none, none)
           | some t => t))
    ∧ (∀ inp : ArtistCountsInput, inp.cookie_disabled = false → inp.music0 = some 0 →
      (resolve_artist_counts inp).1 = some 0)
    ∧ (∀ inp : SongCountsInput,
      parse_counts_from_api_or_nextdata inp.song_api inp.nextdata = (none, none) →
      inp.pw = none → inp.likes0 = some 0 → inp.plays0 = some 0 →
      resolve_song_counts inp = (none, none))
    ∧ (∀ inp : SongCountsInput,
      parse_counts_from_api_or_nextdata inp.song_api inp.nextdata = (none, none) →
      inp.likes0 = none → inp.plays0 = none → inp.pw = none →
      resolve_song_counts inp = (none, none)) := by
  refine ⟨?_, ?_, ?_, ?_⟩
  · intro inp h1 h2
    unfold resolve_artist_counts
    rw [h1, h2]
    simp only [beq_self_eq_true, Bool.true_or, Bool.true_and, if_true]
    cases hpw : inp.pw with
    | none => rfl
    | some t =>
      rcases t with ⟨m2, f2, fo2⟩
      simp [keepOr]
  · intro inp h1 h2
    unfold resolve_artist_counts
    rw [h1, h2]
    simp only [Bool.false_and, Bool.false_eq_true, if_false]
    cases hpw : inp.pw with
    | none => rfl
    | some t =>
      rcases t with ⟨m2, f2, fo2⟩
      show (if (some 0 : Option Int) = none ∨ inp.fans0 = none ∨ inp.following0 = none
          then (keepOr (some 0) m2, keepOr inp.fans0 f2, keepOr inp.following0 fo2)
          else (some 0, inp.fans0, inp.following0)).1 = some 0
      by_cases hcond : (some 0 : Option Int) = none ∨ inp.fans0 = none ∨ inp.following0 = none
      · rw [if_pos hcond]
        rfl
      · rw [if_neg hcond]
  · intro inp hp hpw hl0 hp0
    unfold resolve_song_counts ssrStage ssrKeep pwStage
    rw [hp, hpw, hl0, hp0]
    simp
  · intro inp hp hl0 hp0 hpw
    unfold resolve_song_counts ssrStage ssrKeep pwStage
    rw [hp, hpw, hl0, hp0]
    simp

/-- Witness for C1's amended statement at concrete inputs. -/
theorem C1_ambiguous_zero_amended_witness :
    resolve_artist_counts ⟨true, some 0, some 500, none, some (some 3, some 4, some 5)⟩
      = (some 3, some 4, some 5)
    ∧ (resolve_artist_counts ⟨false, some 0, some 1, some 2, none⟩).1 = some 0
    ∧ resolve_song_counts ⟨none, none, false, some 0, some 0, none⟩ = (none, none) := by
  refine ⟨?_, ?_, ?_⟩
  · exact C1_ambiguous_zero_amended.1
      ⟨true, some 0, some 500, none, some (some 3, some 4, some 5)⟩ rfl rfl
  · exact C1_ambiguous_zero_amended.2.1 ⟨false, some 0, some 1, some 2, none⟩ rfl rfl
  · exact C1_ambiguous_zero_amended.2.2.1 ⟨none, none, false, some 0, some 0, none⟩
      (by decide) rfl rfl rfl

/-- The rendered-text stage changes nothing once both counts are
resolved. -/
theorem pwStage_keeps {lp : Option Int × Option Int}
    (h1 : lp.1 ≠ none) (h2 : lp.2 ≠ none)
    (pw : Option (Option Int × Option Int)) :
    pwStage pw lp = lp := by
  cases pw with
  | none => rfl
  | some t =>
    rcases t with ⟨l2, p2⟩
    simp only [pwStage]
    rw [if_neg (fun hx => hx.elim h1 h2)]

/-- Counterexample for C3 as stated: the API tier resolves likes = 5,
the SSR markup tier offers 7, and because the plays count is still
missing the SSR block runs and OVERWRITES the higher-tier likes value:
the resolved likes is 7, not 5. -/
theorem C3_ssr_overwrite_cex :
    parse_counts_from_api_or_nextdata
      (some (JVal.jobj (JObj.cons "like_count" (JVal.jint 5) JObj.nil))) none
      = (some 5, none)
    ∧ resolve_song_counts
      ⟨some (JVal.jobj (JObj.cons "like_count" (JVal.jint 5) JObj.nil)),
       none, false, none, some 7, none⟩
      = (some 7, none) := by decide

/-- Claim C3 (amended): precedence does hold between the API tier and the
state-blob tier (the blob is consulted only when the API chain is falsy),
the SSR block is skipped entirely when both counts are already resolved,
and when the page is degraded the SSR reads are never consulted at all;
the violation is confined to the SSR overwrite shown in the
counterexample. -/
theorem C3_tier_precedence_amended :
    (∀ sa nd : Option JVal, pyTruthy (apiLikesOpt sa) = true →
      (parse_counts_from_api_or_nextdata sa nd).1 = apiLikesOpt sa)
    ∧ (∀ sa nd : Option JVal, pyTruthy (apiPlaysOpt sa) = true →
      (parse_counts_from_api_or_nextdata sa nd).2 = apiPlaysOpt sa)
    ∧ (∀ inp : SongCountsInput,
      (parse_counts_from_api_or_nextdata inp.song_api inp.nextdata).1 ≠ none →
      (parse_counts_from_api_or_nextdata inp.song_api inp.nextdata).2 ≠ none →
      resolve_song_counts inp = parse_counts_from_api_or_nextdata inp.song_api inp.nextdata)
    ∧ (∀ inp : SongCountsInput, inp.cookie_disabled = true →
      resolve_song_counts inp
        = resolve_song_counts ⟨inp.song_api, inp.nextdata, true, none, none, inp.pw⟩) := by
  refine ⟨?_, ?_, ?_, ?_⟩
  · intro sa nd h
    show ndStepLikes (apiLikesOpt sa) nd = apiLikesOpt sa
    unfold ndStepLikes
    rw [h]
    simp
  · intro sa nd h
    show ndStepPlays (apiPlaysOpt sa) nd = apiPlaysOpt sa
    unfold ndStepPlays
    rw [h]
    simp
  · intro inp h1 h2
    have hns : ¬(((parse_counts_from_api_or_nextdata inp.song_api inp.nextdata).1 = none
        ∨ (parse_counts_from_api_or_nextdata inp.song_api inp.nextdata).2 = none)
        ∧ inp.cookie_disabled = false) := by
      intro hx
      rcases hx.1 with hh | hh
      · exact h1 hh
      · exact h2 hh
    unfold resolve_song_counts
    rw [show ssrStage inp (parse_counts_from_api_or_nextdata inp.song_api inp.nextdata)
        = parse_counts_from_api_or_nextdata inp.song_api inp.nextdata from by
      unfold ssrStage
      exact if_neg hns]
    exact pwStage_keeps h1 h2 inp.pw
  · intro inp h
    unfold resolve_song_counts ssrStage
    rw [h]
    simp

/-- Witness for C3's amended statement at concrete inputs. -/
theorem C3_tier_precedence_amended_witness :
    (parse_counts_from_api_or_nextdata
        (some (JVal.jobj (JObj.cons "like_count" (JVal.jint 5) JObj.nil)))
        (some (JVal.jobj (JObj.cons "like_count" (JVal.jint 9) JObj.nil)))).1
      = apiLikesOpt (some (JVal.jobj (JObj.cons "like_count" (JVal.jint 5) JObj.nil))) :=
  C3_tier_precedence_amended.1 _ _ (by decide)

/-- Counterexample for C6 as stated: the marker occurs in the document,
strategies (a) and (b) find nothing, and the extractor returns absent —
there is no third, constructed-path fallback in the code. -/
theorem C6_no_constructed_path_cex :
    strContains (docFullText [⟨"p", "達人推薦", none, none⟩]) critic_marker = true
    ∧ extract_critic_review_url [⟨"p", "達人推薦", none, none⟩] = none := by decide

/-- Claim C6 (amended): the extractor returns absent unconditionally
when the marker is absent from the full document text; any non-absent
result comes from strategy (a) (heading then next hyperlink), or from
strategy (b) (hyperlink whose own text holds the marker) when (a) yields
nothing — and from nowhere else. -/
theorem C6_gate_and_strategies (doc : List Node) :
    (strContains (docFullText doc) critic_marker = false →
      extract_critic_review_url doc = none)
    ∧ (extract_critic_review_url doc ≠ none →
      strContains (docFullText doc) critic_marker = true
      ∧ (extract_critic_review_url doc = critic_from_header doc
         ∨ (critic_from_header doc = none
            ∧ extract_critic_review_url doc = critic_from_anchor_text doc))) := by
  constructor
  · intro h
    unfold extract_critic_review_url
    rw [h]
    exact if_neg Bool.false_ne_true
  · intro h
    by_cases hm : strContains (docFullText doc) critic_marker = true
    · refine ⟨hm, ?_⟩
      unfold extract_critic_review_url
      rw [if_pos hm]
      cases hh : critic_from_header doc with
      | some u => left; rfl
      | none => right; exact ⟨rfl, rfl⟩
    · exfalso
      apply h
      unfold extract_critic_review_url
      rw [if_neg hm]

/-- Witness for C6's gate at a concrete marker-free document. -/
theorem C6_gate_and_strategies_witness :
    extract_critic_review_url [⟨"p", "hello", none, none⟩] = none :=
  (C6_gate_and_strategies [⟨"p", "hello", none, none⟩]).1 (by decide)

/-- Counterexample for C7 as stated: the driver loop has no per-item
exception boundary — when the first item's extraction raises, the whole
batch aborts with that error even though the second item would have
succeeded, instead of skipping the item and continuing. -/
theorem C7_error_aborts_batch_cex :
    main_rows_loop exPerItem
      [(1, "s1", "a1", "u1", "v1"), (2, "s2", "a2", "u2", "v2")]
      = Except.error "parse error"
    ∧ exPerItem (2, "s2", "a2", "u2", "v2") = Except.ok exDummyRow := by
  exact ⟨rfl, rfl⟩

/-- Claim C7 (amended): when no per-item computation raises (the fetch
failure path: the scrapers return all-absent dicts instead of raising),
the loop processes every item and yields one row per item; but a raised
error propagates out of the loop immediately, aborting the batch. -/
theorem C7_loop_isolation_amended :
    (∀ (f : ChartItem → Except String Row) (items : List ChartItem),
      (∀ it ∈ items, ∃ r, f it = Except.ok r) →
      ∃ rs, main_rows_loop f items = Except.ok rs ∧ rs.length = items.length)
    ∧ (∀ (f : ChartItem → Except String Row) (it : ChartItem)
        (rest : List ChartItem) (e : String),
      f it = Except.error e → main_rows_loop f (it :: rest) = Except.error e) := by
  constructor
  · intro f items h
    induction items with
    | nil => exact ⟨[], rfl, rfl⟩
    | cons it rest ih =>
      obtain ⟨r, hr⟩ := h it (List.mem_cons_self it rest)
      obtain ⟨rs, hrs, hlen⟩ := ih (fun x hx => h x (List.mem_cons_of_mem it hx))
      refine ⟨r :: rs, ?_, ?_⟩
      · simp only [main_rows_loop, hr, hrs]
      · simp [hlen]
  · intro f it rest e he
    simp only [main_rows_loop, he]

/-- Witness for C7's amended loop statement at a concrete batch. -/
theorem C7_loop_isolation_amended_witness :
    ∃ rs, main_rows_loop (fun _ => Except.ok exDummyRow) [(1, "s", "a", "u", "v")]
      = Except.ok rs ∧ rs.length = 1 :=
  C7_loop_isolation_amended.1 (fun _ => Except.ok exDummyRow)
    [(1, "s", "a", "u", "v")] (fun _ _ => ⟨exDummyRow, rfl⟩)

/-- Claim C8: resolution outcomes do not depend on the iteration order
of the blacklist set — the only unordered-set iteration in the per-item
pipeline — so resolving a fixed input twice gives identical results. -/
theorem C8_blacklist_order_invariant (l l' : List String) (url : String)
    (h : l.Perm l') :
    is_blacklisted_social l url = is_blacklisted_social l' url := by
  unfold is_blacklisted_social
  by_cases hu : (url == "") = true
  · rw [if_pos hu, if_pos hu]
  · rw [if_neg hu, if_neg hu]
    exact perm_any_eq h _

/-- Witness for C8 on a reordered two-element blacklist. -/
theorem C8_blacklist_order_invariant_witness :
    is_blacklisted_social
      ["instagram.com/streetvoice", "youtube.com/StreetVoiceTV"]
      "https://youtube.com/watch"
    = is_blacklisted_social
      ["youtube.com/StreetVoiceTV", "instagram.com/streetvoice"]
      "https://youtube.com/watch" :=
  C8_blacklist_order_invariant _ _ _ (List.Perm.swap _ _ _)
